import Mathlib

/-!
# Container checks of kube-score

A shallow embedding of `score/container/container.go`: the three pod-level
checks `containerResources`, `containerImageTag` and
`containerImagePullPolicy`, the helper `containerTag`, and `Register`.

Go strings are modelled by Lean strings, Go slices by lists, the named
result `score` by an explicit value threaded through each loop, and every
`for ... range` loop by a left fold of its body over the slice.
-/

namespace KubeScore

/-! ## Collaborating types (Kubernetes API and scorecard packages) -/

/-- Modelled from the spec: the type `scorecard.Grade` is declared outside
`src/`. It is an integer type; the unset (zero) value of a fresh `TestScore`
is `0`. -/
abbrev Grade : Type := Nat

/-- Modelled from the spec: the constant `scorecard.GradeCritical`
(numeric encoding 1, as the tests of `score_test.go` also expect). -/
def GradeCritical : Grade := 1

/-- Modelled from the spec: the constant `scorecard.GradeWarning`
(numeric encoding 5). -/
def GradeWarning : Grade := 5

/-- Modelled from the spec: the constant `scorecard.GradeAllOK`
(numeric encoding 10). -/
def GradeAllOK : Grade := 10

/-- Modelled from the spec: the type `scorecard.TestScoreComment`, declared
outside `src/`: a path, a summary and a description. -/
structure TestScoreComment where
  Path : String
  Summary : String
  Description : String
  deriving DecidableEq, Repr

/-- Modelled from the spec: the type `checks.Check`/`scorecard.Check`,
declared outside `src/`: the name of a check and its documentation. -/
structure Check where
  Name : String := ""
  Comment : String := ""
  deriving DecidableEq, Repr

/-- Modelled from the spec: the type `scorecard.TestScore`, declared outside
`src/`: the originating check, a grade and the ordered comments. The default
values are the Go zero value, which is what the named result `score` holds
when a check starts. -/
structure TestScore where
  Check : Check := {}
  Grade : Grade := 0
  Comments : List TestScoreComment := []
  deriving DecidableEq, Repr

/-- Modelled from the spec: the method `(*TestScore).AddComment`, declared
outside `src/`: it appends one comment to the ordered comments. -/
def TestScore.AddComment (score : TestScore) (path summary description : String) :
    TestScore :=
  { score with Comments := score.Comments ++ [⟨path, summary, description⟩] }

/-- A `resource.Quantity` of the Kubernetes API, reduced to its numeric
amount (in the smallest unit the quantity can express). -/
structure Quantity where
  value : Int := 0
  deriving DecidableEq, Repr

/-- The method `Quantity.IsZero`. -/
def Quantity.IsZero (q : Quantity) : Bool := q.value == 0

/-- A `corev1.ResourceList`: a map from resource names to quantities, kept
as an association list (the first binding of a name is the one looked up). -/
abbrev ResourceList : Type := List (String × Quantity)

/-- The method `ResourceList.Cpu`: the quantity stored under `"cpu"`, or the
zero quantity when the map has no such entry. -/
def ResourceList.Cpu (rl : ResourceList) : Quantity :=
  match rl.lookup "cpu" with
  | some val => val
  | none => {}

/-- The method `ResourceList.Memory`: the quantity stored under `"memory"`,
or the zero quantity when the map has no such entry. -/
def ResourceList.Memory (rl : ResourceList) : Quantity :=
  match rl.lookup "memory" with
  | some val => val
  | none => {}

/-- The type `corev1.ResourceRequirements`. -/
structure ResourceRequirements where
  Limits : ResourceList := []
  Requests : ResourceList := []
  deriving DecidableEq, Repr

/-- The type `corev1.PullPolicy` is a string type. -/
abbrev PullPolicy : Type := String

/-- The constant `corev1.PullAlways`. -/
def PullAlways : PullPolicy := "Always"

/-- The fields of `corev1.Container` that the checks read, and some that
they do not. -/
structure Container where
  Name : String := ""
  Image : String := ""
  Command : List String := []
  Args : List String := []
  WorkingDir : String := ""
  Resources : ResourceRequirements := {}
  ImagePullPolicy : PullPolicy := ""
  deriving DecidableEq, Repr

/-- The type `metav1.ObjectMeta`, reduced to identity fields. -/
structure ObjectMeta where
  Name : String := ""
  Namespace : String := ""
  Labels : List (String × String) := []
  Annotations : List (String × String) := []
  deriving DecidableEq, Repr

/-- The type `corev1.PodSpec`: the two container lists the checks read, and
some fields that they do not. -/
structure PodSpec where
  InitContainers : List Container := []
  Containers : List Container := []
  RestartPolicy : String := ""
  ServiceAccountName : String := ""
  NodeName : String := ""
  HostNetwork : Bool := false
  deriving DecidableEq, Repr

/-- The type `corev1.PodTemplateSpec`. -/
structure PodTemplateSpec where
  ObjectMeta : ObjectMeta := {}
  Spec : PodSpec := {}
  deriving DecidableEq, Repr

/-! ## `strings.Split` with a one-character separator -/

namespace strings

/-- Cut a character sequence at every occurrence of `sep`. The result is
never empty: a sequence with `n` separators yields `n + 1` pieces. -/
def splitChars (sep : Char) : List Char → List (List Char)
  | [] => [[]]
  | c :: cs =>
    if c = sep then [] :: splitChars sep cs
    else
      match splitChars sep cs with
      | [] => [[c]]
      | p :: ps => (c :: p) :: ps

/-- The function `strings.Split(s, sep)` of the Go standard library for a
separator of exactly one character, the only way the source calls it. -/
def Split (s : String) (sep : Char) : List String :=
  (splitChars sep s.data).map String.mk

end strings

/-! ## `score/container/container.go` -/

/-- The function `containerTag` returns the image tag; an empty string is
returned if the image has no tag. -/
def containerTag (image : String) : String :=
  let imageParts := strings.Split image ':'
  if imageParts.length > 1 then
    let imageVersion := imageParts.getD (imageParts.length - 1) ""
    imageVersion
  else
    ""

/-- The merged list that each of the three checks builds first:
`allContainers := pod.InitContainers` followed by
`allContainers = append(allContainers, pod.Containers...)`, the init
containers in declared order and then the regular ones. -/
def allContainers (podTemplate : PodTemplateSpec) : List Container :=
  let pod := podTemplate.Spec
  pod.InitContainers ++ pod.Containers

/-- The local state of the loop of `containerResources`. -/
structure ResourcesState where
  score : TestScore := {}
  hasMissingLimit : Bool := false
  hasMissingRequest : Bool := false
  deriving DecidableEq, Repr

/-- One iteration of the loop of `containerResources`: four successive
`if` statements. -/
def containerResourcesBody (requireCPULimit : Bool) (st : ResourcesState)
    (container : Container) : ResourcesState :=
  let st :=
    if container.Resources.Limits.Cpu.IsZero && requireCPULimit then
      { st with
        score := st.score.AddComment container.Name "CPU limit is not set"
          "Resource limits are recommended to avoid resource DDOS. Set resources.limits.cpu"
        hasMissingLimit := true }
    else st
  let st :=
    if container.Resources.Limits.Memory.IsZero then
      { st with
        score := st.score.AddComment container.Name "Memory limit is not set"
          "Resource limits are recommended to avoid resource DDOS. Set resources.limits.memory"
        hasMissingLimit := true }
    else st
  let st :=
    if container.Resources.Requests.Cpu.IsZero then
      { st with
        score := st.score.AddComment container.Name "CPU request is not set"
          "Resource requests are recommended to make sure that the application can start and run without crashing. Set resources.requests.cpu"
        hasMissingRequest := true }
    else st
  let st :=
    if container.Resources.Requests.Memory.IsZero then
      { st with
        score := st.score.AddComment container.Name "Memory request is not set"
          "Resource requests are recommended to make sure that the application can start and run without crashing. Set resources.requests.memory"
        hasMissingRequest := true }
    else st
  st

/-- The function `containerResources` makes sure that the container has
resource requests and limits set. The check for a CPU limit requirement can
be enabled via the `requireCPULimit` flag parameter. -/
def containerResources (requireCPULimit : Bool) :
    PodTemplateSpec → String → TestScore :=
  fun podTemplate _kind =>
    let all := allContainers podTemplate
    let st := all.foldl (containerResourcesBody requireCPULimit) {}
    let score := st.score
    if all.length = 0 then
      let score := { score with Grade := GradeCritical }
      score.AddComment "" "No containers defined" ""
    else if st.hasMissingLimit then
      { score with Grade := GradeCritical }
    else if st.hasMissingRequest then
      { score with Grade := GradeWarning }
    else
      { score with Grade := GradeAllOK }

/-- The local state of the loop of `containerImageTag`. -/
structure ImageTagState where
  score : TestScore := {}
  hasTagLatest : Bool := false
  deriving DecidableEq, Repr

/-- One iteration of the loop of `containerImageTag`. -/
def containerImageTagBody (st : ImageTagState) (container : Container) :
    ImageTagState :=
  let tag := containerTag container.Image
  if tag = "" ∨ tag = "latest" then
    { score := st.score.AddComment container.Name "Image with latest tag"
        "Using a fixed tag is recommended to avoid accidental upgrades"
      hasTagLatest := true }
  else st

/-- The function `containerImageTag` checks that no container is using the
":latest" tag. -/
def containerImageTag (podTemplate : PodTemplateSpec) (_king : String) : TestScore :=
  let all := allContainers podTemplate
  let st := all.foldl containerImageTagBody {}
  let score := st.score
  if st.hasTagLatest then
    { score with Grade := GradeCritical }
  else
    { score with Grade := GradeAllOK }

/-- One iteration of the loop of `containerImagePullPolicy`; the state is
the result `score` itself. -/
def containerImagePullPolicyBody (score : TestScore) (container : Container) :
    TestScore :=
  let tag := containerTag container.Image
  -- If the pull policy is not set, and the tag is either empty or latest
  -- kubernetes will default to always pull the image
  if container.ImagePullPolicy = "" ∧ (tag = "" ∨ tag = "latest") then
    score
  -- No defined pull policy
  else if container.ImagePullPolicy ≠ PullAlways ∨ container.ImagePullPolicy = "" then
    let score := score.AddComment container.Name "ImagePullPolicy is not set to Always"
      "It's recommended to always set the ImagePullPolicy to Always, to make sure that the imagePullSecrets are always correct, and to always get the image you want."
    { score with Grade := GradeCritical }
  else score

/-- The function `containerImagePullPolicy` checks if the containers
ImagePullPolicy is set to PullAlways. -/
def containerImagePullPolicy (podTemplate : PodTemplateSpec) (_kind : String) :
    TestScore :=
  let all := allContainers podTemplate
  -- Default to AllOK
  let score : TestScore := { Grade := GradeAllOK }
  all.foldl containerImagePullPolicyBody score

/-! ## Registration -/

/-- Modelled from the spec: the type `config.Configuration`, declared
outside `src/`; the two toggles that the tests of `score_test.go` set. -/
structure Configuration where
  IgnoreContainerCpuLimitRequirement : Bool := false
  IgnoreContainerMemoryLimitRequirement : Bool := false
  deriving DecidableEq, Repr

/-- Modelled from the spec: a registered pod-level check of the package
`checks`, declared outside `src/`: the check's metadata and its evaluation
function. -/
structure CheckPod where
  Check : Check
  Fn : PodTemplateSpec → String → TestScore

/-- Modelled from the spec: the registry `checks.Checks`, declared outside
`src/`; the pod-level checks in registration order. -/
structure Checks where
  pods : List CheckPod := []

/-- Modelled from the spec: the method `(*Checks).RegisterPodCheck`,
declared outside `src/`. Registering a duplicate name fails with a startup
configuration error; otherwise the check is added after those registered
before. -/
def Checks.RegisterPodCheck (allChecks : Checks) (name comment : String)
    (fn : PodTemplateSpec → String → TestScore) : Except String Checks :=
  if allChecks.pods.any (fun p => p.Check.Name == name) then
    .error ("duplicate check name: " ++ name)
  else
    .ok { pods := allChecks.pods ++ [{ Check := { Name := name, Comment := comment }, Fn := fn }] }

/-- The function `Register`: three registrations in sequence; a failed
registration aborts the rest. -/
def Register (allChecks : Checks) (cnf : Configuration) : Except String Checks := do
  let allChecks ← allChecks.RegisterPodCheck "Container Resources"
    "Makes sure that all pods have resource limits and requests set. The --ignore-container-cpu-limit flag can be used to disable the requirement of having a CPU limit"
    (containerResources (!cnf.IgnoreContainerCpuLimitRequirement))
  let allChecks ← allChecks.RegisterPodCheck "Container Image Tag"
    "Makes sure that a explicit non-latest tag is used"
    containerImageTag
  allChecks.RegisterPodCheck "Container Image Pull Policy"
    "Makes sure that the pullPolicy is set to Always. This makes sure that imagePullSecrets are always validated."
    containerImagePullPolicy

/-- The pod-level check registered under `name`, if any. -/
def Checks.lookupPod (allChecks : Checks) (name : String) : Option CheckPod :=
  allChecks.pods.find? (fun p => p.Check.Name == name)

/-! ## The built-in `append` on slices -/

/-- A Go slice of containers: the backing array from the first element of
the slice to the end of its capacity, and the length of the slice. -/
structure Slice where
  array : List Container := []
  len : Nat := 0
  deriving DecidableEq, Repr

/-- The elements a slice shows: the first `len` cells of its array. -/
def Slice.elems (s : Slice) : List Container := s.array.take s.len

/-- The capacity of a slice. -/
def Slice.cap (s : Slice) : Nat := s.array.length

/-- The elements that a second slice over the same backing array shows,
when it starts `off` cells behind the first cell of `s` and has length `n`. -/
def Slice.window (s : Slice) (off n : Nat) : List Container :=
  (s.array.drop off).take n

namespace builtin

/-- The Go built-in `append(s, xs...)`, with its effect on memory made
explicit: the first component is the slice it returns, the second is the
argument slice `s` as its holder sees it after the call. When the capacity
suffices the new elements are written into the backing array of `s` behind
its length; otherwise they go to a freshly allocated array and the array of
`s` stays as it is. The elements `xs` are read before any cell is written,
also when they lie in the array of `s` themselves; what a slice over that
array shows after the call is read off the second component with
`Slice.window`. -/
def append (s : Slice) (xs : List Container) : Slice × Slice :=
  if s.len + xs.length ≤ s.cap then
    let array := s.array.take s.len ++ xs ++ s.array.drop (s.len + xs.length)
    ({ array := array, len := s.len + xs.length }, { array := array, len := s.len })
  else
    ({ array := s.array.take s.len ++ xs, len := s.len + xs.length }, s)

end builtin

/-! ## Concrete inputs -/

/-- A pod template with one container and nothing else set. -/
def singleContainerPod (c : Container) : PodTemplateSpec :=
  { Spec := { Containers := [c] } }

/-- A pod template without any container, with other fields set. -/
def emptyPod : PodTemplateSpec :=
  { ObjectMeta := { Name := "web", Namespace := "prod", Labels := [("app", "web")] }
    Spec := { RestartPolicy := "Always", ServiceAccountName := "web", HostNetwork := true } }

/-- A container with a memory limit and both requests, but no CPU limit. -/
def noCpuLimitContainer : Container :=
  { Name := "app"
    Image := "nginx:1.19"
    Resources :=
      { Limits := [("memory", ⟨128⟩)]
        Requests := [("cpu", ⟨100⟩), ("memory", ⟨64⟩)] } }

/-- A container with both requests and no limit at all. -/
def noLimitsContainer : Container :=
  { Name := "app"
    Image := "nginx:1.19"
    Resources := { Requests := [("cpu", ⟨100⟩), ("memory", ⟨64⟩)] } }

/-- An init container without resources, then a container that only misses
its CPU limit. -/
def twoContainerPod : PodTemplateSpec :=
  { Spec := { InitContainers := [{ Name := "setup", Image := "busybox" }]
              Containers := [noCpuLimitContainer] } }

/-- A single container with a fixed tag and no pull policy. -/
def pullPolicyCriticalPod : PodTemplateSpec :=
  singleContainerPod { Name := "app", Image := "nginx:1.19" }

/-- The template `pullPolicyCriticalPod` with an init container added and an
acceptable container added after the failing one. -/
def pullPolicyExtendedPod : PodTemplateSpec :=
  { Spec :=
    { InitContainers := [{ Name := "setup", Image := "busybox:1.36", ImagePullPolicy := "Always" }]
      Containers :=
        [ { Name := "app", Image := "nginx:1.19" },
          { Name := "sidecar", Image := "envoy:1.30", ImagePullPolicy := "Always" } ] } }

/-- The containers of `twoContainerPod`, the regular one as init container
and the init one as regular container. -/
def swappedTwoContainerPod : PodTemplateSpec :=
  { Spec := { InitContainers := [noCpuLimitContainer]
              Containers := [{ Name := "setup", Image := "busybox" }] } }

/-- A slice that holds the init container of `twoContainerPod` and has
room for one more element, which holds an old value. -/
def initSliceWithSpareCapacity : Slice :=
  { array := [{ Name := "setup", Image := "busybox" }, noLimitsContainer], len := 1 }

/-- A slice that holds the init container of `twoContainerPod` in an array
of three cells, the last of which holds its regular container. -/
def initSliceSharedArray : Slice :=
  { array := [{ Name := "setup", Image := "busybox" }, noLimitsContainer, noCpuLimitContainer]
    len := 1 }

/-- A container "a" with a fixed tag. -/
def containerA : Container := { Name := "a", Image := "nginx:1.19" }

/-- A container "b" with the tag "latest". -/
def containerB : Container := { Name := "b", Image := "nginx:latest" }

/-- A container "c" with a fixed tag. -/
def containerC : Container := { Name := "c", Image := "redis:7" }

/-- An array of three containers with capacity four, as
`make([]Container, 3, 4)` filled with a, b, c: the last cell holds the zero
value. The slice is its window `[0:2]`. -/
def aliasedInitSlice : Slice :=
  { array := [containerA, containerB, containerC, {}], len := 2 }

/-- The pod template whose init containers are the window `[0:2]` and whose
regular containers are the window `[1:3]` of the array of
`aliasedInitSlice`. -/
def aliasedPod : PodTemplateSpec :=
  { Spec := { InitContainers := aliasedInitSlice.elems
              Containers := aliasedInitSlice.window 1 2 } }

/-- The template `aliasedPod` as its holder reads it, through the same two
windows, once a check has built its merged list. -/
def aliasedPodAfterCheck : PodTemplateSpec :=
  { Spec :=
    { InitContainers := (builtin.append aliasedInitSlice aliasedPod.Spec.Containers).2.elems
      Containers := (builtin.append aliasedInitSlice aliasedPod.Spec.Containers).2.window 1 2 } }

/-! ## Specification-side vocabulary for the resource check -/

/-- The comments one container draws from the resource check, as the
specification words them: the failing ones among four independent checks, in
the fixed order CPU limit (only when required), memory limit, CPU request,
memory request, each under the container's name. -/
def failingChecks (requireCPULimit : Bool) (c : Container) : List TestScoreComment :=
  (if c.Resources.Limits.Cpu.IsZero = true ∧ requireCPULimit = true then
    [⟨c.Name, "CPU limit is not set",
      "Resource limits are recommended to avoid resource DDOS. Set resources.limits.cpu"⟩]
   else []) ++
  (if c.Resources.Limits.Memory.IsZero = true then
    [⟨c.Name, "Memory limit is not set",
      "Resource limits are recommended to avoid resource DDOS. Set resources.limits.memory"⟩]
   else []) ++
  (if c.Resources.Requests.Cpu.IsZero = true then
    [⟨c.Name, "CPU request is not set",
      "Resource requests are recommended to make sure that the application can start and run without crashing. Set resources.requests.cpu"⟩]
   else []) ++
  (if c.Resources.Requests.Memory.IsZero = true then
    [⟨c.Name, "Memory request is not set",
      "Resource requests are recommended to make sure that the application can start and run without crashing. Set resources.requests.memory"⟩]
   else [])

/-- The number of failing checks of one container. -/
def failingCheckCount (requireCPULimit : Bool) (c : Container) : Nat :=
  (if c.Resources.Limits.Cpu.IsZero = true ∧ requireCPULimit = true then 1 else 0) +
  (if c.Resources.Limits.Memory.IsZero = true then 1 else 0) +
  (if c.Resources.Requests.Cpu.IsZero = true then 1 else 0) +
  (if c.Resources.Requests.Memory.IsZero = true then 1 else 0)

/-- A container misses a required limit. -/
def missingLimit (requireCPULimit : Bool) (c : Container) : Prop :=
  c.Resources.Limits.Memory.IsZero = true ∨
    (c.Resources.Limits.Cpu.IsZero = true ∧ requireCPULimit = true)

/-- A container misses a request. -/
def missingRequest (c : Container) : Prop :=
  c.Resources.Requests.Cpu.IsZero = true ∨ c.Resources.Requests.Memory.IsZero = true

instance (r : Bool) (c : Container) : Decidable (missingLimit r c) := by
  unfold missingLimit; infer_instance

instance (c : Container) : Decidable (missingRequest c) := by
  unfold missingRequest; infer_instance

/-- The image of a container has no tag or the tag "latest". -/
def tagEmptyOrLatest (c : Container) : Prop :=
  containerTag c.Image = "" ∨ containerTag c.Image = "latest"

instance (c : Container) : Decidable (tagEmptyOrLatest c) := by
  unfold tagEmptyOrLatest; infer_instance

/-- The comment a container draws from the image-tag check. -/
def imageTagComment (c : Container) : TestScoreComment :=
  ⟨c.Name, "Image with latest tag",
    "Using a fixed tag is recommended to avoid accidental upgrades"⟩

/-- A container is skipped by the pull-policy check: its pull policy is
unset and its image has no tag or the tag "latest". -/
def pullPolicySkipped (c : Container) : Prop :=
  c.ImagePullPolicy = "" ∧ tagEmptyOrLatest c

instance (c : Container) : Decidable (pullPolicySkipped c) := by
  unfold pullPolicySkipped; infer_instance

/-- A container fails the pull-policy check: it is not skipped and its pull
policy differs from "Always". -/
def pullPolicyFails (c : Container) : Prop :=
  ¬ pullPolicySkipped c ∧ c.ImagePullPolicy ≠ "Always"

instance (c : Container) : Decidable (pullPolicyFails c) := by
  unfold pullPolicyFails; infer_instance

/-- The comment a container draws from the pull-policy check. -/
def pullPolicyComment (c : Container) : TestScoreComment :=
  ⟨c.Name, "ImagePullPolicy is not set to Always",
    "It's recommended to always set the ImagePullPolicy to Always, to make sure that the imagePullSecrets are always correct, and to always get the image you want."⟩

/-! ## The loop of `containerResources` -/

theorem containerResourcesBody_eq (r : Bool) (st : ResourcesState) (c : Container) :
    containerResourcesBody r st c =
      { score := { st.score with Comments := st.score.Comments ++ failingChecks r c }
        hasMissingLimit := st.hasMissingLimit || decide (missingLimit r c)
        hasMissingRequest := st.hasMissingRequest || decide (missingRequest c) } := by
  obtain ⟨⟨ch, g, cs⟩, ml, mr⟩ := st
  rcases Bool.eq_false_or_eq_true c.Resources.Limits.Cpu.IsZero with h1 | h1 <;>
  rcases Bool.eq_false_or_eq_true c.Resources.Limits.Memory.IsZero with h2 | h2 <;>
  rcases Bool.eq_false_or_eq_true c.Resources.Requests.Cpu.IsZero with h3 | h3 <;>
  rcases Bool.eq_false_or_eq_true c.Resources.Requests.Memory.IsZero with h4 | h4 <;>
  cases r <;>
  simp [containerResourcesBody, failingChecks, missingLimit, missingRequest,
    TestScore.AddComment, h1, h2, h3, h4]

theorem containerResources_foldl (r : Bool) (l : List Container) (st : ResourcesState) :
    l.foldl (containerResourcesBody r) st =
      { score := { st.score with
          Comments := st.score.Comments ++ l.flatMap (failingChecks r) }
        hasMissingLimit := st.hasMissingLimit || decide (∃ c ∈ l, missingLimit r c)
        hasMissingRequest := st.hasMissingRequest || decide (∃ c ∈ l, missingRequest c) } := by
  induction l generalizing st with
  | nil => obtain ⟨⟨ch, g, cs⟩, ml, mr⟩ := st; simp
  | cons c l ih =>
    rw [List.foldl_cons, ih, containerResourcesBody_eq]
    simp [List.append_assoc, Bool.or_assoc]

/-- The whole of `containerResources` in closed form. -/
theorem containerResources_eq (r : Bool) (podTemplate : PodTemplateSpec) (kind : String) :
    containerResources r podTemplate kind =
      if allContainers podTemplate = [] then
        { Grade := GradeCritical, Comments := [⟨"", "No containers defined", ""⟩] }
      else
        { Grade :=
            if ∃ c ∈ allContainers podTemplate, missingLimit r c then GradeCritical
            else if ∃ c ∈ allContainers podTemplate, missingRequest c then GradeWarning
            else GradeAllOK
          Comments := (allContainers podTemplate).flatMap (failingChecks r) } := by
  unfold containerResources
  simp only [containerResources_foldl]
  by_cases hnil : allContainers podTemplate = []
  · simp [hnil, TestScore.AddComment]
  · have hlen : (allContainers podTemplate).length ≠ 0 := by
      simpa [List.length_eq_zero] using hnil
    by_cases hl : ∃ c ∈ allContainers podTemplate, missingLimit r c
    · simp [hnil, hl]
    · by_cases hr : ∃ c ∈ allContainers podTemplate, missingRequest c
      · simp [hnil, hl, hr]
      · simp [hnil, hl, hr]

theorem allContainers_ne_nil (podTemplate : PodTemplateSpec)
    (h : podTemplate.Spec.InitContainers ≠ [] ∨ podTemplate.Spec.Containers ≠ []) :
    allContainers podTemplate ≠ [] := by
  unfold allContainers
  intro hnil
  rw [List.append_eq_nil] at hnil
  rcases h with h | h
  · exact h hnil.1
  · exact h hnil.2

/-- C1: for every flag value and every pod template with at least one
container (init or regular), the grade of `containerResources` is decided
worst-of: Critical exactly when some container has a zero memory limit, or a
zero CPU limit while the CPU limit is required; Warning exactly when no
container misses such a limit and some container has a zero CPU or memory
request; AllOK exactly when no container misses a required limit or a
request. -/
theorem containerResources_grade_worst_of (requireCPULimit : Bool)
    (podTemplate : PodTemplateSpec) (kind : String)
    (hne : podTemplate.Spec.InitContainers ≠ [] ∨ podTemplate.Spec.Containers ≠ []) :
    ((containerResources requireCPULimit podTemplate kind).Grade = GradeCritical ↔
      ∃ c ∈ podTemplate.Spec.InitContainers ++ podTemplate.Spec.Containers,
        c.Resources.Limits.Memory.IsZero = true ∨
          (c.Resources.Limits.Cpu.IsZero = true ∧ requireCPULimit = true)) ∧
    ((containerResources requireCPULimit podTemplate kind).Grade = GradeWarning ↔
      (¬ ∃ c ∈ podTemplate.Spec.InitContainers ++ podTemplate.Spec.Containers,
        c.Resources.Limits.Memory.IsZero = true ∨
          (c.Resources.Limits.Cpu.IsZero = true ∧ requireCPULimit = true)) ∧
      ∃ c ∈ podTemplate.Spec.InitContainers ++ podTemplate.Spec.Containers,
        c.Resources.Requests.Cpu.IsZero = true ∨
          c.Resources.Requests.Memory.IsZero = true) ∧
    ((containerResources requireCPULimit podTemplate kind).Grade = GradeAllOK ↔
      (¬ ∃ c ∈ podTemplate.Spec.InitContainers ++ podTemplate.Spec.Containers,
        c.Resources.Limits.Memory.IsZero = true ∨
          (c.Resources.Limits.Cpu.IsZero = true ∧ requireCPULimit = true)) ∧
      ¬ ∃ c ∈ podTemplate.Spec.InitContainers ++ podTemplate.Spec.Containers,
        c.Resources.Requests.Cpu.IsZero = true ∨
          c.Resources.Requests.Memory.IsZero = true) := by
  have hnil := allContainers_ne_nil podTemplate hne
  rw [containerResources_eq, if_neg hnil]
  change (_ ↔ ∃ c ∈ allContainers podTemplate, missingLimit requireCPULimit c) ∧
    (_ ↔ (¬ ∃ c ∈ allContainers podTemplate, missingLimit requireCPULimit c) ∧
      ∃ c ∈ allContainers podTemplate, missingRequest c) ∧
    (_ ↔ (¬ ∃ c ∈ allContainers podTemplate, missingLimit requireCPULimit c) ∧
      ¬ ∃ c ∈ allContainers podTemplate, missingRequest c)
  by_cases hl : ∃ c ∈ allContainers podTemplate, missingLimit requireCPULimit c
  · simp [hl, GradeCritical, GradeWarning, GradeAllOK]
  · by_cases hr : ∃ c ∈ allContainers podTemplate, missingRequest c
    · simp [hl, hr, GradeCritical, GradeWarning, GradeAllOK]
    · simp [hl, hr, GradeCritical, GradeWarning, GradeAllOK]

/-- Witness of C1: a single container with a memory limit and both requests
but no CPU limit, with the CPU limit required, is graded Critical. -/
theorem containerResources_grade_worst_of_witness :
    ((singleContainerPod noCpuLimitContainer).Spec.InitContainers ≠ [] ∨
      (singleContainerPod noCpuLimitContainer).Spec.Containers ≠ []) ∧
    (containerResources true (singleContainerPod noCpuLimitContainer) "Pod").Grade =
      GradeCritical :=
  ⟨Or.inr (by decide),
   (containerResources_grade_worst_of true (singleContainerPod noCpuLimitContainer) "Pod"
      (Or.inr (by decide))).1.2 ⟨noCpuLimitContainer, by decide, by decide⟩⟩

/-- C2: for every flag value and every pod template with no init containers
and no regular containers, `containerResources` returns grade Critical and
exactly one comment, with empty path, summary "No containers defined" and
empty description, whatever the other fields of the template and the kind
argument are. -/
theorem containerResources_no_containers (requireCPULimit : Bool)
    (podTemplate : PodTemplateSpec) (kind : String)
    (hinit : podTemplate.Spec.InitContainers = [])
    (hcont : podTemplate.Spec.Containers = []) :
    (containerResources requireCPULimit podTemplate kind).Grade = GradeCritical ∧
    (containerResources requireCPULimit podTemplate kind).Comments =
      [{ Path := "", Summary := "No containers defined", Description := "" }] := by
  have hnil : allContainers podTemplate = [] := by
    simp [allContainers, hinit, hcont]
  rw [containerResources_eq, if_pos hnil]
  exact ⟨rfl, rfl⟩

/-- Witness of C2: a template without containers whose other fields are
set. -/
theorem containerResources_no_containers_witness :
    emptyPod.Spec.InitContainers = [] ∧ emptyPod.Spec.Containers = [] ∧
    (containerResources false emptyPod "Deployment").Grade = GradeCritical ∧
    (containerResources false emptyPod "Deployment").Comments =
      [{ Path := "", Summary := "No containers defined", Description := "" }] :=
  ⟨rfl, rfl, containerResources_no_containers false emptyPod "Deployment" rfl rfl⟩

theorem failingChecks_length (r : Bool) (c : Container) :
    (failingChecks r c).length = failingCheckCount r c := by
  unfold failingChecks failingCheckCount
  simp only [List.length_append]
  congr 1
  · congr 1
    · congr 1
      · split <;> rfl
      · split <;> rfl
    · split <;> rfl
  · split <;> rfl

theorem flatMap_failingChecks_length (r : Bool) (l : List Container) :
    (l.flatMap (failingChecks r)).length = (l.map (failingCheckCount r)).sum := by
  induction l with
  | nil => rfl
  | cons c l ih =>
    simp [List.flatMap_cons, List.length_append, ih, failingChecks_length]

/-- C10: for every flag value and every pod template with at least one
container, the comments of `containerResources` are exactly the
concatenation, over the containers in merged order (init containers, then
regular ones), of each container's failing checks in the fixed order CPU
limit (only when required), memory limit, CPU request, memory request, each
under the container's name; so the number of comments is the total number
of failing checks. -/
theorem containerResources_comments (requireCPULimit : Bool)
    (podTemplate : PodTemplateSpec) (kind : String)
    (hne : podTemplate.Spec.InitContainers ≠ [] ∨ podTemplate.Spec.Containers ≠ []) :
    (containerResources requireCPULimit podTemplate kind).Comments =
      (podTemplate.Spec.InitContainers ++ podTemplate.Spec.Containers).flatMap
        (failingChecks requireCPULimit) ∧
    (containerResources requireCPULimit podTemplate kind).Comments.length =
      ((podTemplate.Spec.InitContainers ++ podTemplate.Spec.Containers).map
        (failingCheckCount requireCPULimit)).sum := by
  have hnil := allContainers_ne_nil podTemplate hne
  rw [containerResources_eq, if_neg hnil]
  exact ⟨rfl, flatMap_failingChecks_length requireCPULimit (allContainers podTemplate)⟩

/-- Witness of C10: an init container without any resources followed by a
regular container that only misses its CPU limit. -/
theorem containerResources_comments_witness :
    (twoContainerPod.Spec.InitContainers ≠ [] ∨ twoContainerPod.Spec.Containers ≠ []) ∧
    (containerResources true twoContainerPod "Pod").Comments =
      [ ⟨"setup", "CPU limit is not set",
          "Resource limits are recommended to avoid resource DDOS. Set resources.limits.cpu"⟩,
        ⟨"setup", "Memory limit is not set",
          "Resource limits are recommended to avoid resource DDOS. Set resources.limits.memory"⟩,
        ⟨"setup", "CPU request is not set",
          "Resource requests are recommended to make sure that the application can start and run without crashing. Set resources.requests.cpu"⟩,
        ⟨"setup", "Memory request is not set",
          "Resource requests are recommended to make sure that the application can start and run without crashing. Set resources.requests.memory"⟩,
        ⟨"app", "CPU limit is not set",
          "Resource limits are recommended to avoid resource DDOS. Set resources.limits.cpu"⟩ ] ∧
    (containerResources true twoContainerPod "Pod").Comments.length = 5 :=
  ⟨Or.inl (by decide),
   (containerResources_comments true twoContainerPod "Pod" (Or.inl (by decide))).1.trans
     (by decide),
   (containerResources_comments true twoContainerPod "Pod" (Or.inl (by decide))).2.trans
     (by decide)⟩

/-! ## `strings.Split` and `containerTag` -/

theorem splitChars_ne_nil (sep : Char) (s : List Char) :
    strings.splitChars sep s ≠ [] := by
  cases s with
  | nil => simp [strings.splitChars]
  | cons c cs =>
    unfold strings.splitChars
    split
    · simp
    · split <;> simp

theorem splitChars_of_not_mem (sep : Char) (s : List Char) (h : sep ∉ s) :
    strings.splitChars sep s = [s] := by
  induction s with
  | nil => rfl
  | cons c cs ih =>
    have hc : c ≠ sep := fun e => h (by simp [e])
    have hcs : sep ∉ cs := fun e => h (List.mem_cons_of_mem _ e)
    simp [strings.splitChars, hc, ih hcs]

theorem splitChars_append_sep (sep : Char) (a b : List Char) :
    strings.splitChars sep (a ++ sep :: b) =
      strings.splitChars sep a ++ strings.splitChars sep b := by
  induction a with
  | nil => simp [strings.splitChars]
  | cons c a ih =>
    by_cases hc : c = sep
    · simp [strings.splitChars, hc, ih]
    · have hne := splitChars_ne_nil sep a
      cases hsp : strings.splitChars sep a with
      | nil => exact absurd hsp hne
      | cons q qs =>
        simp [strings.splitChars, hc, ih, hsp]

/-- Every sequence that contains `sep` splits at its last occurrence. -/
theorem exists_last_sep (sep : Char) (s : List Char) (h : sep ∈ s) :
    ∃ a b, s = a ++ sep :: b ∧ sep ∉ b := by
  induction s with
  | nil => simp at h
  | cons c cs ih =>
    by_cases hcs : sep ∈ cs
    · obtain ⟨a, b, hab, hb⟩ := ih hcs
      exact ⟨c :: a, b, by simp [hab], hb⟩
    · have hc : sep = c := by
        rcases List.mem_cons.mp h with e | e
        · exact e
        · exact absurd e hcs
      exact ⟨[], cs, by simp [hc], hcs⟩

/-- The tag of an image without a colon is empty. -/
theorem containerTag_of_no_colon (image : String) (h : ':' ∉ image.data) :
    containerTag image = "" := by
  simp [containerTag, strings.Split, splitChars_of_not_mem _ _ h]

/-- The tag of `pre ++ ":" ++ tag` is `tag` when `tag` has no colon. -/
theorem containerTag_append_colon (pre tag : String) (h : ':' ∉ tag.data) :
    containerTag (pre ++ ":" ++ tag) = tag := by
  have hdata : (pre ++ ":" ++ tag).data = pre.data ++ ':' :: tag.data := by
    simp [String.data_append]
  have hsplit : strings.splitChars ':' (pre ++ ":" ++ tag).data =
      strings.splitChars ':' pre.data ++ [tag.data] := by
    rw [hdata, splitChars_append_sep, splitChars_of_not_mem _ _ h]
  have hne := splitChars_ne_nil ':' pre.data
  have hlen : 0 < (strings.splitChars ':' pre.data).length :=
    List.length_pos.mpr hne
  unfold containerTag strings.Split
  simp only [hsplit, List.map_append, List.map_cons, List.map_nil, List.length_append,
    List.length_map, List.length_cons, List.length_nil]
  rw [if_pos (by omega)]
  simp [List.getElem?_append_right]

/-- C5: for every image string, `containerTag` returns the substring after
the final colon when the string contains a colon (the image is some
beginning, a colon, and the tag, and the tag has no colon), and the empty
string when the image contains no colon. -/
theorem containerTag_after_final_colon (image : String) :
    (':' ∈ image.data →
      ∃ pre : String, image = pre ++ ":" ++ containerTag image ∧
        ':' ∉ (containerTag image).data) ∧
    (':' ∉ image.data → containerTag image = "") := by
  refine ⟨fun h => ?_, containerTag_of_no_colon image⟩
  obtain ⟨a, b, hab, hb⟩ := exists_last_sep ':' image.data h
  have himg : image = String.mk a ++ ":" ++ String.mk b := by
    apply String.ext
    simp [String.data_append, hab]
  have htag : containerTag image = String.mk b := by
    rw [himg]
    exact containerTag_append_colon (String.mk a) (String.mk b) hb
  rw [htag]
  exact ⟨String.mk a, himg, hb⟩

/-- Witness of C5: the images "registry:5000/nginx:1.19" and "nginx". -/
theorem containerTag_after_final_colon_witness :
    (∃ pre : String, "registry:5000/nginx:1.19" =
        pre ++ ":" ++ containerTag "registry:5000/nginx:1.19" ∧
        ':' ∉ (containerTag "registry:5000/nginx:1.19").data) ∧
    containerTag "registry:5000/nginx:1.19" = "1.19" ∧
    containerTag "nginx" = "" :=
  ⟨(containerTag_after_final_colon "registry:5000/nginx:1.19").1 (by decide),
   by decide,
   (containerTag_after_final_colon "nginx").2 (by decide)⟩

/-! ## The loops of `containerImageTag` and `containerImagePullPolicy` -/

theorem containerImageTag_foldl (l : List Container) (st : ImageTagState) :
    l.foldl containerImageTagBody st =
      { score := { st.score with
          Comments := st.score.Comments ++ (l.filter (fun c => decide (tagEmptyOrLatest c))).map imageTagComment }
        hasTagLatest := st.hasTagLatest || decide (∃ c ∈ l, tagEmptyOrLatest c) } := by
  induction l generalizing st with
  | nil => obtain ⟨⟨ch, g, cs⟩, b⟩ := st; simp
  | cons c l ih =>
    rw [List.foldl_cons, ih]
    obtain ⟨⟨ch, g, cs⟩, b⟩ := st
    by_cases hc : tagEmptyOrLatest c
    · have hc2 := hc
      unfold tagEmptyOrLatest at hc2
      simp [containerImageTagBody, hc, hc2, TestScore.AddComment, imageTagComment]
    · have hc2 := hc
      unfold tagEmptyOrLatest at hc2
      simp [containerImageTagBody, hc, hc2]

/-- The whole of `containerImageTag` in closed form. -/
theorem containerImageTag_eq (podTemplate : PodTemplateSpec) (kind : String) :
    containerImageTag podTemplate kind =
      { Grade :=
          if ∃ c ∈ allContainers podTemplate, tagEmptyOrLatest c then GradeCritical
          else GradeAllOK
        Comments :=
          ((allContainers podTemplate).filter (fun c => decide (tagEmptyOrLatest c))).map
            imageTagComment } := by
  unfold containerImageTag
  simp only [containerImageTag_foldl]
  by_cases h : ∃ c ∈ allContainers podTemplate, tagEmptyOrLatest c
  · simp [h]
  · simp [h]

theorem containerImagePullPolicyBody_eq (score : TestScore) (c : Container) :
    containerImagePullPolicyBody score c =
      if pullPolicyFails c then
        { score with Grade := GradeCritical, Comments := score.Comments ++ [pullPolicyComment c] }
      else score := by
  unfold containerImagePullPolicyBody pullPolicyFails pullPolicySkipped tagEmptyOrLatest
  by_cases hs : c.ImagePullPolicy = "" ∧
      (containerTag c.Image = "" ∨ containerTag c.Image = "latest")
  · simp [hs]
  · by_cases ha : c.ImagePullPolicy = "Always"
    · simp [hs, ha, PullAlways]
    · simp [hs, ha, PullAlways, TestScore.AddComment, pullPolicyComment]

theorem containerImagePullPolicy_foldl (l : List Container) (score : TestScore) :
    l.foldl containerImagePullPolicyBody score =
      { Check := score.Check
        Grade := if ∃ c ∈ l, pullPolicyFails c then GradeCritical else score.Grade
        Comments := score.Comments ++
          (l.filter (fun c => decide (pullPolicyFails c))).map pullPolicyComment } := by
  induction l generalizing score with
  | nil => simp
  | cons c l ih =>
    rw [List.foldl_cons, ih, containerImagePullPolicyBody_eq]
    by_cases hc : pullPolicyFails c
    · simp [hc]
    · simp [hc]

/-- The whole of `containerImagePullPolicy` in closed form. -/
theorem containerImagePullPolicy_eq (podTemplate : PodTemplateSpec) (kind : String) :
    containerImagePullPolicy podTemplate kind =
      { Grade :=
          if ∃ c ∈ allContainers podTemplate, pullPolicyFails c then GradeCritical
          else GradeAllOK
        Comments :=
          ((allContainers podTemplate).filter (fun c => decide (pullPolicyFails c))).map
            pullPolicyComment } := by
  unfold containerImagePullPolicy
  simp only [containerImagePullPolicy_foldl]
  simp

/-- C6: for every pod template, `containerImageTag` returns Critical exactly
when some container (init or regular) has an image whose `containerTag` is
empty or "latest", and AllOK otherwise; a single container with image
"nginx" or "nginx:latest" grades Critical and one with image "nginx:1.19"
grades AllOK. -/
theorem containerImageTag_grade (podTemplate : PodTemplateSpec) (kind : String) :
    ((containerImageTag podTemplate kind).Grade = GradeCritical ↔
      ∃ c ∈ podTemplate.Spec.InitContainers ++ podTemplate.Spec.Containers,
        containerTag c.Image = "" ∨ containerTag c.Image = "latest") ∧
    ((containerImageTag podTemplate kind).Grade = GradeAllOK ↔
      ¬ ∃ c ∈ podTemplate.Spec.InitContainers ++ podTemplate.Spec.Containers,
        containerTag c.Image = "" ∨ containerTag c.Image = "latest") ∧
    (∀ c : Container,
      (containerImageTag
        { podTemplate with Spec := { podTemplate.Spec with
            InitContainers := [], Containers := [{ c with Image := "nginx" }] } }
        kind).Grade = GradeCritical ∧
      (containerImageTag
        { podTemplate with Spec := { podTemplate.Spec with
            InitContainers := [], Containers := [{ c with Image := "nginx:latest" }] } }
        kind).Grade = GradeCritical ∧
      (containerImageTag
        { podTemplate with Spec := { podTemplate.Spec with
            InitContainers := [], Containers := [{ c with Image := "nginx:1.19" }] } }
        kind).Grade = GradeAllOK) := by
  refine ⟨?_, ?_, ?_⟩
  · rw [containerImageTag_eq]
    change _ ↔ ∃ c ∈ allContainers podTemplate, tagEmptyOrLatest c
    by_cases h : ∃ c ∈ allContainers podTemplate, tagEmptyOrLatest c
    · simp [h]
    · simp [h, GradeCritical, GradeAllOK]
  · rw [containerImageTag_eq]
    change _ ↔ ¬ ∃ c ∈ allContainers podTemplate, tagEmptyOrLatest c
    by_cases h : ∃ c ∈ allContainers podTemplate, tagEmptyOrLatest c
    · simp [h, GradeCritical, GradeAllOK]
    · simp [h]
  · intro c
    have h1 : containerTag "nginx" = "" := by decide
    have h2 : containerTag "nginx:latest" = "latest" := by decide
    have h3 : containerTag "nginx:1.19" = "1.19" := by decide
    refine ⟨?_, ?_, ?_⟩
    · simp [containerImageTag_eq, allContainers, tagEmptyOrLatest, h1]
    · simp [containerImageTag_eq, allContainers, tagEmptyOrLatest, h2]
    · rw [containerImageTag_eq]
      have : ¬ ("1.19" = "" ∨ "1.19" = "latest") := by decide
      simp [allContainers, tagEmptyOrLatest, h3, this]

/-- C7: for every image reference host, colon, port, slash, path in which
port and path contain no colon, `containerTag` returns port, slash, path,
which is neither empty nor "latest", so a pod template whose only container
uses that image is graded AllOK with no comments by `containerImageTag`. -/
theorem containerTag_registry_port (host port path : String)
    (hport : ':' ∉ port.data) (hpath : ':' ∉ path.data) :
    containerTag (host ++ ":" ++ port ++ "/" ++ path) = port ++ "/" ++ path ∧
    port ++ "/" ++ path ≠ "" ∧
    port ++ "/" ++ path ≠ "latest" ∧
    ∀ (podTemplate : PodTemplateSpec) (c : Container) (kind : String),
      containerImageTag
        { podTemplate with Spec := { podTemplate.Spec with
            InitContainers := []
            Containers := [{ c with Image := host ++ ":" ++ port ++ "/" ++ path }] } }
        kind = { Grade := GradeAllOK, Comments := [] } := by
  have hno : ':' ∉ (port ++ "/" ++ path).data := by
    simp [String.data_append, hport, hpath]
  have htag : containerTag (host ++ ":" ++ port ++ "/" ++ path) = port ++ "/" ++ path := by
    have hassoc : host ++ ":" ++ port ++ "/" ++ path = host ++ ":" ++ (port ++ "/" ++ path) := by
      simp [String.append_assoc]
    rw [hassoc]
    exact containerTag_append_colon host (port ++ "/" ++ path) hno
  have hslash : '/' ∈ (port ++ "/" ++ path).data := by
    simp [String.data_append]
  have hne1 : port ++ "/" ++ path ≠ "" := by
    intro e
    rw [e] at hslash
    exact absurd hslash (by decide)
  have hne2 : port ++ "/" ++ path ≠ "latest" := by
    intro e
    rw [e] at hslash
    exact absurd hslash (by decide)
  refine ⟨htag, hne1, hne2, ?_⟩
  intro podTemplate c kind
  rw [containerImageTag_eq]
  simp [allContainers, tagEmptyOrLatest, htag, hne1, hne2]

/-- Witness of C7: the image "myregistry:5000/nginx". -/
theorem containerTag_registry_port_witness :
    ':' ∉ "5000".data ∧ ':' ∉ "nginx".data ∧
    containerTag ("myregistry" ++ ":" ++ "5000" ++ "/" ++ "nginx") = "5000" ++ "/" ++ "nginx" ∧
    containerImageTag
      (singleContainerPod
        { Name := "app", Image := "myregistry" ++ ":" ++ "5000" ++ "/" ++ "nginx" })
      "Pod" = { Grade := GradeAllOK, Comments := [] } :=
  ⟨by decide, by decide,
   (containerTag_registry_port "myregistry" "5000" "nginx" (by decide) (by decide)).1,
   (containerTag_registry_port "myregistry" "5000" "nginx" (by decide) (by decide)).2.2.2
     {} { Name := "app" } "Pod"⟩

/-- The grade of `containerImagePullPolicy` on a template whose only
container is `c`. -/
theorem containerImagePullPolicy_single (podTemplate : PodTemplateSpec) (c : Container)
    (kind : String) (hinit : podTemplate.Spec.InitContainers = [])
    (hcont : podTemplate.Spec.Containers = [c]) :
    (containerImagePullPolicy podTemplate kind).Grade =
      if pullPolicyFails c then GradeCritical else GradeAllOK := by
  rw [containerImagePullPolicy_eq]
  simp [allContainers, hinit, hcont]

/-- C8: for every pod template, `containerImagePullPolicy` returns Critical
exactly when some container (init or regular) is not skipped and has a pull
policy different from "Always", where a container is skipped exactly when
its pull policy is unset and its image's `containerTag` is empty or
"latest"; otherwise it returns AllOK. For a single container: policy unset
with no tag or tag "latest" gives AllOK; policy "Never" gives Critical
whatever the tag; policy "Always" gives AllOK whatever the tag; policy unset
with a fixed tag gives Critical. -/
theorem containerImagePullPolicy_grade (podTemplate : PodTemplateSpec) (kind : String) :
    ((containerImagePullPolicy podTemplate kind).Grade = GradeCritical ↔
      ∃ c ∈ podTemplate.Spec.InitContainers ++ podTemplate.Spec.Containers,
        ¬ (c.ImagePullPolicy = "" ∧
            (containerTag c.Image = "" ∨ containerTag c.Image = "latest")) ∧
        c.ImagePullPolicy ≠ "Always") ∧
    ((containerImagePullPolicy podTemplate kind).Grade = GradeAllOK ↔
      ¬ ∃ c ∈ podTemplate.Spec.InitContainers ++ podTemplate.Spec.Containers,
        ¬ (c.ImagePullPolicy = "" ∧
            (containerTag c.Image = "" ∨ containerTag c.Image = "latest")) ∧
        c.ImagePullPolicy ≠ "Always") ∧
    (∀ c : Container, podTemplate.Spec.InitContainers = [] →
      podTemplate.Spec.Containers = [c] →
      (c.ImagePullPolicy = "" →
        containerTag c.Image = "" ∨ containerTag c.Image = "latest" →
        (containerImagePullPolicy podTemplate kind).Grade = GradeAllOK) ∧
      (c.ImagePullPolicy = "Never" →
        (containerImagePullPolicy podTemplate kind).Grade = GradeCritical) ∧
      (c.ImagePullPolicy = "Always" →
        (containerImagePullPolicy podTemplate kind).Grade = GradeAllOK) ∧
      (c.ImagePullPolicy = "" →
        containerTag c.Image ≠ "" → containerTag c.Image ≠ "latest" →
        (containerImagePullPolicy podTemplate kind).Grade = GradeCritical)) := by
  refine ⟨?_, ?_, ?_⟩
  · rw [containerImagePullPolicy_eq]
    change _ ↔ ∃ c ∈ allContainers podTemplate, pullPolicyFails c
    by_cases h : ∃ c ∈ allContainers podTemplate, pullPolicyFails c
    · simp [h]
    · simp [h, GradeCritical, GradeAllOK]
  · rw [containerImagePullPolicy_eq]
    change _ ↔ ¬ ∃ c ∈ allContainers podTemplate, pullPolicyFails c
    by_cases h : ∃ c ∈ allContainers podTemplate, pullPolicyFails c
    · simp [h, GradeCritical, GradeAllOK]
    · simp [h]
  · intro c hinit hcont
    rw [containerImagePullPolicy_single podTemplate c kind hinit hcont]
    refine ⟨?_, ?_, ?_, ?_⟩
    · intro hp ht
      have : ¬ pullPolicyFails c := fun hf => hf.1 ⟨hp, ht⟩
      simp [this]
    · intro hp
      have : pullPolicyFails c := by
        refine ⟨fun hs => ?_, ?_⟩
        · rw [hs.1] at hp
          exact absurd hp (by decide)
        · rw [hp]
          decide
      simp [this]
    · intro hp
      have : ¬ pullPolicyFails c := fun hf => hf.2 hp
      simp [this]
    · intro hp ht1 ht2
      have : pullPolicyFails c := by
        refine ⟨fun hs => ?_, ?_⟩
        · rcases hs.2 with e | e
          · exact ht1 e
          · exact ht2 e
        · rw [hp]
          decide
      simp [this]

/-- Witness of C8: the unset policy with the images "nginx:latest" and
"nginx:1.19", and the policies "Never" and "Always". -/
theorem containerImagePullPolicy_grade_witness :
    (containerImagePullPolicy
        (singleContainerPod { Name := "app", Image := "nginx:latest" }) "Pod").Grade
      = GradeAllOK ∧
    (containerImagePullPolicy
        (singleContainerPod { Name := "app", Image := "nginx", ImagePullPolicy := "Never" })
        "Pod").Grade
      = GradeCritical ∧
    (containerImagePullPolicy
        (singleContainerPod { Name := "app", Image := "nginx:1.19", ImagePullPolicy := "Always" })
        "Pod").Grade
      = GradeAllOK ∧
    (containerImagePullPolicy
        (singleContainerPod { Name := "app", Image := "nginx:1.19" }) "Pod").Grade
      = GradeCritical :=
  ⟨((containerImagePullPolicy_grade
        (singleContainerPod { Name := "app", Image := "nginx:latest" }) "Pod").2.2
      _ rfl rfl).1 rfl (by decide),
   ((containerImagePullPolicy_grade
        (singleContainerPod { Name := "app", Image := "nginx", ImagePullPolicy := "Never" })
        "Pod").2.2 _ rfl rfl).2.1 rfl,
   ((containerImagePullPolicy_grade
        (singleContainerPod { Name := "app", Image := "nginx:1.19", ImagePullPolicy := "Always" })
        "Pod").2.2 _ rfl rfl).2.2.1 rfl,
   ((containerImagePullPolicy_grade
        (singleContainerPod { Name := "app", Image := "nginx:1.19" }) "Pod").2.2
      _ rfl rfl).2.2.2 rfl (by decide) (by decide)⟩

/-- C9: the grade of `containerImagePullPolicy` is monotonic across
containers: when a template is graded Critical, every template obtained
from it by adding further containers, to the init list or the regular list
and at any position, is graded Critical too. -/
theorem containerImagePullPolicy_monotone (podTemplate extended : PodTemplateSpec)
    (kind kindExtended : String)
    (hinit : podTemplate.Spec.InitContainers.Sublist extended.Spec.InitContainers)
    (hcont : podTemplate.Spec.Containers.Sublist extended.Spec.Containers)
    (hcrit : (containerImagePullPolicy podTemplate kind).Grade = GradeCritical) :
    (containerImagePullPolicy extended kindExtended).Grade = GradeCritical := by
  rw [containerImagePullPolicy_eq] at hcrit ⊢
  by_cases h : ∃ c ∈ allContainers podTemplate, pullPolicyFails c
  · obtain ⟨c, hc, hf⟩ := h
    have hsub : (allContainers podTemplate).Sublist (allContainers extended) :=
      List.Sublist.append hinit hcont
    have h2 : ∃ c ∈ allContainers extended, pullPolicyFails c :=
      ⟨c, hsub.subset hc, hf⟩
    simp [h2]
  · simp [h, GradeCritical, GradeAllOK] at hcrit

/-- Witness of C9: a container with a fixed tag and no pull policy, to which
an init container and a later container with policy "Always" are added. -/
theorem containerImagePullPolicy_monotone_witness :
    (containerImagePullPolicy pullPolicyCriticalPod "Pod").Grade = GradeCritical ∧
    (containerImagePullPolicy pullPolicyExtendedPod "Deployment").Grade = GradeCritical :=
  ⟨by decide,
   containerImagePullPolicy_monotone pullPolicyCriticalPod pullPolicyExtendedPod
     "Pod" "Deployment" (List.nil_sublist _)
     (List.Sublist.cons₂ _ (List.Sublist.cons _ List.Sublist.slnil)) (by decide)⟩

/-! ## `Register` -/

theorem RegisterPodCheck_ok (allChecks : Checks) (name comment : String)
    (fn : PodTemplateSpec → String → TestScore)
    (h : ∀ p ∈ allChecks.pods, p.Check.Name ≠ name) :
    allChecks.RegisterPodCheck name comment fn =
      .ok { pods := allChecks.pods ++ [{ Check := { Name := name, Comment := comment }, Fn := fn }] } := by
  have hany : (allChecks.pods.any fun p => p.Check.Name == name) = false := by
    rw [List.any_eq_false]
    intro p hp
    simpa using h p hp
  simp [Checks.RegisterPodCheck, hany]

/-- On a registry that holds none of the three names, `Register` succeeds
and the check found under "Container Resources" is `containerResources`
built with the negated CPU toggle. -/
theorem Register_containerResources (allChecks : Checks) (cnf : Configuration)
    (hfresh : ∀ p ∈ allChecks.pods,
      p.Check.Name ≠ "Container Resources" ∧ p.Check.Name ≠ "Container Image Tag" ∧
        p.Check.Name ≠ "Container Image Pull Policy") :
    ∃ reg ch, Register allChecks cnf = .ok reg ∧
      reg.lookupPod "Container Resources" = some ch ∧
      ch.Fn = containerResources (!cnf.IgnoreContainerCpuLimitRequirement) := by
  have hfind : allChecks.pods.find? (fun p => p.Check.Name == "Container Resources")
      = none := by
    rw [List.find?_eq_none]
    intro p hp
    simpa using (hfresh p hp).1
  have key : ∃ reg, Register allChecks cnf = .ok reg ∧
      (reg.lookupPod "Container Resources").map CheckPod.Fn =
        some (containerResources (!cnf.IgnoreContainerCpuLimitRequirement)) := by
    unfold Register
    rw [RegisterPodCheck_ok allChecks _ _ _ (fun p hp => (hfresh p hp).1)]
    simp only [bind, Except.bind]
    rw [RegisterPodCheck_ok _ "Container Image Tag" _ _ (by
      intro p hp
      rcases List.mem_append.mp hp with h | h
      · exact (hfresh p h).2.1
      · rw [List.mem_singleton.mp h]
        simp)]
    simp only
    rw [RegisterPodCheck_ok _ "Container Image Pull Policy" _ _ (by
      intro p hp
      rcases List.mem_append.mp hp with h | h
      · rcases List.mem_append.mp h with h | h
        · exact (hfresh p h).2.2
        · rw [List.mem_singleton.mp h]
          simp
      · rw [List.mem_singleton.mp h]
        simp)]
    refine ⟨_, rfl, ?_⟩
    simp [Checks.lookupPod, List.find?_append, hfind]
  obtain ⟨reg, hreg, hfn⟩ := key
  cases hl : reg.lookupPod "Container Resources" with
  | none => simp [hl] at hfn
  | some ch =>
    refine ⟨reg, ch, hreg, hl, ?_⟩
    simpa [hl] using hfn

/-- C3: for every pod template in which every container has a non-zero
memory limit, a non-zero CPU request and a non-zero memory request, and at
least one container has a zero CPU limit, the Container Resources check
registered by `Register` grades AllOK (10) with no comments when
`IgnoreContainerCpuLimitRequirement` is true, and Critical (1) when it is
false. -/
theorem register_cpu_limit_toggle (allChecks : Checks) (cnf : Configuration)
    (podTemplate : PodTemplateSpec) (kind : String)
    (hfresh : ∀ p ∈ allChecks.pods,
      p.Check.Name ≠ "Container Resources" ∧ p.Check.Name ≠ "Container Image Tag" ∧
        p.Check.Name ≠ "Container Image Pull Policy")
    (hall : ∀ c ∈ podTemplate.Spec.InitContainers ++ podTemplate.Spec.Containers,
      c.Resources.Limits.Memory.IsZero = false ∧
      c.Resources.Requests.Cpu.IsZero = false ∧
      c.Resources.Requests.Memory.IsZero = false)
    (hcpu : ∃ c ∈ podTemplate.Spec.InitContainers ++ podTemplate.Spec.Containers,
      c.Resources.Limits.Cpu.IsZero = true) :
    ∃ reg ch, Register allChecks cnf = .ok reg ∧
      reg.lookupPod "Container Resources" = some ch ∧
      (cnf.IgnoreContainerCpuLimitRequirement = true →
        (ch.Fn podTemplate kind).Grade = GradeAllOK ∧
        (ch.Fn podTemplate kind).Grade = 10 ∧
        (ch.Fn podTemplate kind).Comments = []) ∧
      (cnf.IgnoreContainerCpuLimitRequirement = false →
        (ch.Fn podTemplate kind).Grade = GradeCritical ∧
        (ch.Fn podTemplate kind).Grade = 1) := by
  obtain ⟨reg, ch, hreg, hl, hfn⟩ := Register_containerResources allChecks cnf hfresh
  refine ⟨reg, ch, hreg, hl, ?_, ?_⟩
  · intro hc
    rw [hfn, hc]
    obtain ⟨c0, hc0, _⟩ := hcpu
    have hnil : allContainers podTemplate ≠ [] := List.ne_nil_of_mem hc0
    have hl : ¬ ∃ c ∈ allContainers podTemplate, missingLimit (!true) c := by
      rintro ⟨c, hmem, hm⟩
      rcases hm with hm | hm
      · rw [(hall c hmem).1] at hm
        exact absurd hm (by decide)
      · exact absurd hm.2 (by decide)
    have hr : ¬ ∃ c ∈ allContainers podTemplate, missingRequest c := by
      rintro ⟨c, hmem, hm⟩
      rcases hm with hm | hm
      · rw [(hall c hmem).2.1] at hm
        exact absurd hm (by decide)
      · rw [(hall c hmem).2.2] at hm
        exact absurd hm (by decide)
    have hcs : (allContainers podTemplate).flatMap (failingChecks (!true)) = [] := by
      rw [List.flatMap_eq_nil_iff]
      intro c hmem
      have h := hall c hmem
      simp [failingChecks, h.1, h.2.1, h.2.2]
    rw [containerResources_eq, if_neg hnil, if_neg hl, if_neg hr]
    exact ⟨rfl, rfl, hcs⟩
  · intro hc
    rw [hfn, hc]
    obtain ⟨c0, hc0, hz⟩ := hcpu
    have hnil : allContainers podTemplate ≠ [] := List.ne_nil_of_mem hc0
    have hl : ∃ c ∈ allContainers podTemplate, missingLimit (!false) c :=
      ⟨c0, hc0, Or.inr ⟨hz, rfl⟩⟩
    rw [containerResources_eq, if_neg hnil, if_pos hl]
    exact ⟨rfl, rfl⟩

/-- Witness of C3: the empty registry and a single container that only
misses its CPU limit, once with the requirement ignored and once not. -/
theorem register_cpu_limit_toggle_witness :
    (∃ reg ch, Register {} { IgnoreContainerCpuLimitRequirement := true } = .ok reg ∧
      reg.lookupPod "Container Resources" = some ch ∧
      (ch.Fn (singleContainerPod noCpuLimitContainer) "Pod").Grade = 10 ∧
      (ch.Fn (singleContainerPod noCpuLimitContainer) "Pod").Comments = []) ∧
    (∃ reg ch, Register {} { IgnoreContainerCpuLimitRequirement := false } = .ok reg ∧
      reg.lookupPod "Container Resources" = some ch ∧
      (ch.Fn (singleContainerPod noCpuLimitContainer) "Pod").Grade = 1) := by
  constructor
  · obtain ⟨reg, ch, h1, h2, h3, _⟩ :=
      register_cpu_limit_toggle {} { IgnoreContainerCpuLimitRequirement := true }
        (singleContainerPod noCpuLimitContainer) "Pod"
        (by simp) (by decide) (by decide)
    exact ⟨reg, ch, h1, h2, (h3 rfl).2.1, (h3 rfl).2.2⟩
  · obtain ⟨reg, ch, h1, h2, _, h4⟩ :=
      register_cpu_limit_toggle {} { IgnoreContainerCpuLimitRequirement := false }
        (singleContainerPod noCpuLimitContainer) "Pod"
        (by simp) (by decide) (by decide)
    exact ⟨reg, ch, h1, h2, (h4 rfl).2⟩

/-- C4 (the code departs from the claim): with both
`IgnoreContainerCpuLimitRequirement` and
`IgnoreContainerMemoryLimitRequirement` set, the Container Resources check
registered by `Register` still grades Critical (1), not AllOK (10), a
single container that has both requests and no limits, and reports
"Memory limit is not set": `Register` never reads the memory toggle. -/
theorem register_ignores_memory_limit_toggle :
    ∃ reg ch,
      Register {}
        { IgnoreContainerCpuLimitRequirement := true
          IgnoreContainerMemoryLimitRequirement := true } = .ok reg ∧
      reg.lookupPod "Container Resources" = some ch ∧
      noLimitsContainer.Resources.Requests.Cpu.IsZero = false ∧
      noLimitsContainer.Resources.Requests.Memory.IsZero = false ∧
      noLimitsContainer.Resources.Limits.Cpu.IsZero = true ∧
      noLimitsContainer.Resources.Limits.Memory.IsZero = true ∧
      (ch.Fn (singleContainerPod noLimitsContainer) "Pod").Grade = GradeCritical ∧
      (ch.Fn (singleContainerPod noLimitsContainer) "Pod").Grade = 1 ∧
      (ch.Fn (singleContainerPod noLimitsContainer) "Pod").Grade ≠ GradeAllOK ∧
      (ch.Fn (singleContainerPod noLimitsContainer) "Pod").Comments =
        [⟨"app", "Memory limit is not set",
          "Resource limits are recommended to avoid resource DDOS. Set resources.limits.memory"⟩] := by
  obtain ⟨reg, ch, hreg, hl, hfn⟩ :=
    Register_containerResources {}
      { IgnoreContainerCpuLimitRequirement := true
        IgnoreContainerMemoryLimitRequirement := true } (by simp)
  refine ⟨reg, ch, hreg, hl, by decide, by decide, by decide, by decide, ?_⟩
  rw [hfn]
  decide

/-! ## Grades and comments of the three checks -/

/-- C11: for every input, each of the three checks returns a grade that is
exactly one of Critical (1), Warning (5) or AllOK (10), never the unset zero
value; `containerImageTag` and `containerImagePullPolicy` never return
Warning. -/
theorem grade_is_one_of_three (requireCPULimit : Bool) (podTemplate : PodTemplateSpec)
    (kind : String) :
    (((containerResources requireCPULimit podTemplate kind).Grade = GradeCritical ∨
        (containerResources requireCPULimit podTemplate kind).Grade = GradeWarning ∨
        (containerResources requireCPULimit podTemplate kind).Grade = GradeAllOK) ∧
      (containerResources requireCPULimit podTemplate kind).Grade ≠ 0) ∧
    (((containerImageTag podTemplate kind).Grade = GradeCritical ∨
        (containerImageTag podTemplate kind).Grade = GradeAllOK) ∧
      (containerImageTag podTemplate kind).Grade ≠ GradeWarning ∧
      (containerImageTag podTemplate kind).Grade ≠ 0) ∧
    (((containerImagePullPolicy podTemplate kind).Grade = GradeCritical ∨
        (containerImagePullPolicy podTemplate kind).Grade = GradeAllOK) ∧
      (containerImagePullPolicy podTemplate kind).Grade ≠ GradeWarning ∧
      (containerImagePullPolicy podTemplate kind).Grade ≠ 0) ∧
    GradeCritical = 1 ∧ GradeWarning = 5 ∧ GradeAllOK = 10 := by
  refine ⟨?_, ?_, ?_, rfl, rfl, rfl⟩
  · rw [containerResources_eq]
    by_cases hnil : allContainers podTemplate = []
    · simp [hnil, GradeCritical]
    · by_cases hl : ∃ c ∈ allContainers podTemplate, missingLimit requireCPULimit c
      · simp [hnil, hl, GradeCritical]
      · by_cases hr : ∃ c ∈ allContainers podTemplate, missingRequest c
        · simp [hnil, hl, hr, GradeWarning]
        · simp [hnil, hl, hr, GradeAllOK]
  · rw [containerImageTag_eq]
    by_cases h : ∃ c ∈ allContainers podTemplate, tagEmptyOrLatest c
    · simp [h, GradeCritical, GradeWarning]
    · simp [h, GradeAllOK, GradeWarning]
  · rw [containerImagePullPolicy_eq]
    by_cases h : ∃ c ∈ allContainers podTemplate, pullPolicyFails c
    · simp [h, GradeCritical, GradeWarning]
    · simp [h, GradeAllOK, GradeWarning]

/-- C13: for a pod template with no init containers and no regular
containers, `containerImagePullPolicy` returns its default grade AllOK with
no comments and `containerImageTag` likewise; only `containerResources`
detects the zero-container state, with grade Critical and the comment "No
containers defined". -/
theorem no_containers_only_resources_detects (requireCPULimit : Bool)
    (podTemplate : PodTemplateSpec) (kind : String)
    (hinit : podTemplate.Spec.InitContainers = [])
    (hcont : podTemplate.Spec.Containers = []) :
    (containerImagePullPolicy podTemplate kind).Grade = GradeAllOK ∧
    (containerImagePullPolicy podTemplate kind).Comments = [] ∧
    (containerImageTag podTemplate kind).Grade = GradeAllOK ∧
    (containerImageTag podTemplate kind).Comments = [] ∧
    (containerResources requireCPULimit podTemplate kind).Grade = GradeCritical ∧
    (containerResources requireCPULimit podTemplate kind).Comments =
      [{ Path := "", Summary := "No containers defined", Description := "" }] := by
  have hnil : allContainers podTemplate = [] := by
    simp [allContainers, hinit, hcont]
  rw [containerImagePullPolicy_eq, containerImageTag_eq, containerResources_eq, hnil]
  simp

/-- Witness of C13: the template `emptyPod`. -/
theorem no_containers_only_resources_detects_witness :
    emptyPod.Spec.InitContainers = [] ∧ emptyPod.Spec.Containers = [] ∧
    (containerImagePullPolicy emptyPod "Pod").Grade = GradeAllOK ∧
    (containerImagePullPolicy emptyPod "Pod").Comments = [] ∧
    (containerImageTag emptyPod "Pod").Grade = GradeAllOK ∧
    (containerImageTag emptyPod "Pod").Comments = [] ∧
    (containerResources true emptyPod "Pod").Grade = GradeCritical ∧
    (containerResources true emptyPod "Pod").Comments =
      [{ Path := "", Summary := "No containers defined", Description := "" }] :=
  ⟨rfl, rfl, no_containers_only_resources_detects true emptyPod "Pod" rfl rfl⟩

theorem failingChecks_eq_nil_iff (r : Bool) (c : Container) :
    failingChecks r c = [] ↔ ¬ missingLimit r c ∧ ¬ missingRequest c := by
  rcases Bool.eq_false_or_eq_true c.Resources.Limits.Cpu.IsZero with h1 | h1 <;>
  rcases Bool.eq_false_or_eq_true c.Resources.Limits.Memory.IsZero with h2 | h2 <;>
  rcases Bool.eq_false_or_eq_true c.Resources.Requests.Cpu.IsZero with h3 | h3 <;>
  rcases Bool.eq_false_or_eq_true c.Resources.Requests.Memory.IsZero with h4 | h4 <;>
  cases r <;>
  simp [failingChecks, missingLimit, missingRequest, h1, h2, h3, h4]

/-- C15: for every input, each of the three checks returns AllOK if and
only if it returns no comments: a lowered grade always comes with a comment
and an AllOK result never carries one. -/
theorem allOK_iff_no_comments (requireCPULimit : Bool) (podTemplate : PodTemplateSpec)
    (kind : String) :
    ((containerResources requireCPULimit podTemplate kind).Grade = GradeAllOK ↔
      (containerResources requireCPULimit podTemplate kind).Comments = []) ∧
    ((containerImageTag podTemplate kind).Grade = GradeAllOK ↔
      (containerImageTag podTemplate kind).Comments = []) ∧
    ((containerImagePullPolicy podTemplate kind).Grade = GradeAllOK ↔
      (containerImagePullPolicy podTemplate kind).Comments = []) := by
  refine ⟨?_, ?_, ?_⟩
  · rw [containerResources_eq]
    by_cases hnil : allContainers podTemplate = []
    · simp [hnil, GradeCritical, GradeAllOK]
    · rw [if_neg hnil]
      simp only [List.flatMap_eq_nil_iff, failingChecks_eq_nil_iff]
      by_cases hl : ∃ c ∈ allContainers podTemplate, missingLimit requireCPULimit c
      · rw [if_pos hl]
        obtain ⟨c, hc, hm⟩ := hl
        constructor
        · intro h
          exact absurd h (by decide)
        · intro h
          exact absurd hm (h c hc).1
      · rw [if_neg hl]
        by_cases hr : ∃ c ∈ allContainers podTemplate, missingRequest c
        · rw [if_pos hr]
          obtain ⟨c, hc, hm⟩ := hr
          constructor
          · intro h
            exact absurd h (by decide)
          · intro h
            exact absurd hm (h c hc).2
        · rw [if_neg hr]
          constructor
          · intro _ c hc
            exact ⟨fun hm => hl ⟨c, hc, hm⟩, fun hm => hr ⟨c, hc, hm⟩⟩
          · intro _
            rfl
  · rw [containerImageTag_eq]
    by_cases h : ∃ c ∈ allContainers podTemplate, tagEmptyOrLatest c
    · simp only [if_pos h]
      obtain ⟨c, hc, hm⟩ := h
      constructor
      · intro h
        exact absurd h (by decide)
      · intro h
        have : c ∈ (allContainers podTemplate).filter (fun c => decide (tagEmptyOrLatest c)) := by
          simp [List.mem_filter, hc, hm]
        rw [List.map_eq_nil_iff] at h
        rw [h] at this
        simp at this
    · have hf : (allContainers podTemplate).filter (fun c => decide (tagEmptyOrLatest c)) = [] := by
        rw [List.filter_eq_nil_iff]
        intro c hc hm
        exact h ⟨c, hc, by simpa using hm⟩
      simp [h, hf]
  · rw [containerImagePullPolicy_eq]
    by_cases h : ∃ c ∈ allContainers podTemplate, pullPolicyFails c
    · simp only [if_pos h]
      obtain ⟨c, hc, hm⟩ := h
      constructor
      · intro h
        exact absurd h (by decide)
      · intro h
        have : c ∈ (allContainers podTemplate).filter (fun c => decide (pullPolicyFails c)) := by
          simp [List.mem_filter, hc, hm]
        rw [List.map_eq_nil_iff] at h
        rw [h] at this
        simp at this
    · have hf : (allContainers podTemplate).filter (fun c => decide (pullPolicyFails c)) = [] := by
        rw [List.filter_eq_nil_iff]
        intro c hc hm
        exact h ⟨c, hc, by simpa using hm⟩
      simp [h, hf]

/-! ## Relations between runs of the checks -/

theorem failingChecks_false_eq_filter (c : Container) :
    failingChecks false c =
      (failingChecks true c).filter
        (fun cm => decide (cm.Summary ≠ "CPU limit is not set")) := by
  rcases Bool.eq_false_or_eq_true c.Resources.Limits.Cpu.IsZero with h1 | h1 <;>
  rcases Bool.eq_false_or_eq_true c.Resources.Limits.Memory.IsZero with h2 | h2 <;>
  rcases Bool.eq_false_or_eq_true c.Resources.Requests.Cpu.IsZero with h3 | h3 <;>
  rcases Bool.eq_false_or_eq_true c.Resources.Requests.Memory.IsZero with h4 | h4 <;>
  simp +decide [failingChecks, h1, h2, h3, h4]

theorem flatMap_failingChecks_false (l : List Container) :
    l.flatMap (failingChecks false) =
      (l.flatMap (failingChecks true)).filter
        (fun cm => decide (cm.Summary ≠ "CPU limit is not set")) := by
  induction l with
  | nil => rfl
  | cons c l ih =>
    rw [List.flatMap_cons, List.flatMap_cons, List.filter_append, ← ih,
      ← failingChecks_false_eq_filter]

theorem missingLimit_mono (c : Container) (h : missingLimit false c) :
    missingLimit true c := by
  rcases h with h | h
  · exact Or.inl h
  · exact absurd h.2 (by decide)

/-- C16: relaxing the CPU-limit requirement never worsens the result: the
numeric grade of `containerResources false` is at least that of
`containerResources true`, and its comments are those of
`containerResources true` with the "CPU limit is not set" comments
removed. -/
theorem relaxing_cpu_limit_never_worsens (podTemplate : PodTemplateSpec) (kind : String) :
    (containerResources true podTemplate kind).Grade ≤
      (containerResources false podTemplate kind).Grade ∧
    (containerResources false podTemplate kind).Comments =
      (containerResources true podTemplate kind).Comments.filter
        (fun cm => decide (cm.Summary ≠ "CPU limit is not set")) := by
  rw [containerResources_eq, containerResources_eq]
  by_cases hnil : allContainers podTemplate = []
  · simp +decide [hnil]
  · rw [if_neg hnil, if_neg hnil]
    refine ⟨?_, flatMap_failingChecks_false (allContainers podTemplate)⟩
    by_cases ht : ∃ c ∈ allContainers podTemplate, missingLimit true c
    · have h1 : ∀ g : Grade, g = GradeCritical ∨ g = GradeWarning ∨ g = GradeAllOK →
          GradeCritical ≤ g := by
        intro g hg
        rcases hg with e | e | e <;> rw [e] <;> decide
      simp only [if_pos ht]
      apply h1
      by_cases hf : ∃ c ∈ allContainers podTemplate, missingLimit false c
      · simp [hf]
      · by_cases hr : ∃ c ∈ allContainers podTemplate, missingRequest c
        · simp [hf, hr]
        · simp [hf, hr]
    · have hf : ¬ ∃ c ∈ allContainers podTemplate, missingLimit false c := by
        rintro ⟨c, hc, hm⟩
        exact ht ⟨c, hc, missingLimit_mono c hm⟩
      simp only [if_neg ht, if_neg hf]
      exact Nat.le_refl _

theorem filter_length_add_filter_not (p : Container → Bool) (l : List Container) :
    (l.filter p).length + (l.filter (fun c => !p c)).length = l.length := by
  induction l with
  | nil => rfl
  | cons c l ih =>
    cases hp : p c <;> simp [List.filter_cons, hp] <;> omega

/-- C17: for every pod template in which every container leaves the pull
policy unset, each container draws a comment from exactly one of
`containerImageTag` (when its tag is empty or "latest") and
`containerImagePullPolicy` (otherwise); the two comment counts sum to the
number of containers, and a template with at least one container is never
graded AllOK by both checks. -/
theorem unset_policy_exactly_one_comment (podTemplate : PodTemplateSpec) (kind : String)
    (hunset : ∀ c ∈ podTemplate.Spec.InitContainers ++ podTemplate.Spec.Containers,
      c.ImagePullPolicy = "") :
    (containerImageTag podTemplate kind).Comments =
      ((podTemplate.Spec.InitContainers ++ podTemplate.Spec.Containers).filter
        (fun c => decide (containerTag c.Image = "" ∨ containerTag c.Image = "latest"))).map
        imageTagComment ∧
    (containerImagePullPolicy podTemplate kind).Comments =
      ((podTemplate.Spec.InitContainers ++ podTemplate.Spec.Containers).filter
        (fun c => !decide (containerTag c.Image = "" ∨ containerTag c.Image = "latest"))).map
        pullPolicyComment ∧
    (containerImageTag podTemplate kind).Comments.length +
        (containerImagePullPolicy podTemplate kind).Comments.length =
      (podTemplate.Spec.InitContainers ++ podTemplate.Spec.Containers).length ∧
    (podTemplate.Spec.InitContainers ≠ [] ∨ podTemplate.Spec.Containers ≠ [] →
      ¬ ((containerImageTag podTemplate kind).Grade = GradeAllOK ∧
          (containerImagePullPolicy podTemplate kind).Grade = GradeAllOK)) := by
  have hfails : ∀ c ∈ allContainers podTemplate,
      decide (pullPolicyFails c) = !decide (tagEmptyOrLatest c) := by
    intro c hc
    have hp : c.ImagePullPolicy = "" := hunset c hc
    by_cases ht : tagEmptyOrLatest c
    · have : ¬ pullPolicyFails c := fun hf => hf.1 ⟨hp, ht⟩
      simp [ht, this]
    · have : pullPolicyFails c := by
        refine ⟨fun hs => ht hs.2, ?_⟩
        rw [hp]
        decide
      simp [ht, this]
  have htagc : (containerImageTag podTemplate kind).Comments =
      ((allContainers podTemplate).filter (fun c => decide (tagEmptyOrLatest c))).map
        imageTagComment := by
    rw [containerImageTag_eq]
  have hppc : (containerImagePullPolicy podTemplate kind).Comments =
      ((allContainers podTemplate).filter (fun c => !decide (tagEmptyOrLatest c))).map
        pullPolicyComment := by
    rw [containerImagePullPolicy_eq]
    have hfilter : (allContainers podTemplate).filter (fun c => decide (pullPolicyFails c)) =
        (allContainers podTemplate).filter (fun c => !decide (tagEmptyOrLatest c)) :=
      List.filter_congr hfails
    simp only [hfilter]
  refine ⟨htagc, hppc, ?_, ?_⟩
  · rw [htagc, hppc, List.length_map, List.length_map]
    exact filter_length_add_filter_not _ _
  · intro hne
    have hnil := allContainers_ne_nil podTemplate hne
    obtain ⟨c, hc⟩ := List.exists_mem_of_ne_nil _ hnil
    rw [containerImageTag_eq, containerImagePullPolicy_eq]
    rintro ⟨h1, h2⟩
    by_cases ht : tagEmptyOrLatest c
    · have hex : ∃ c ∈ allContainers podTemplate, tagEmptyOrLatest c := ⟨c, hc, ht⟩
      simp [hex, GradeCritical, GradeAllOK] at h1
    · have hpf : pullPolicyFails c := by
        have := hfails c hc
        simpa [ht] using this
      have hex : ∃ c ∈ allContainers podTemplate, pullPolicyFails c := ⟨c, hc, hpf⟩
      simp [hex, GradeCritical, GradeAllOK] at h2

/-- Witness of C17: the template `twoContainerPod`, whose init container
has no tag and whose regular container has the fixed tag "1.19". -/
theorem unset_policy_exactly_one_comment_witness :
    (∀ c ∈ twoContainerPod.Spec.InitContainers ++ twoContainerPod.Spec.Containers,
      c.ImagePullPolicy = "") ∧
    (containerImageTag twoContainerPod "Pod").Comments.length +
        (containerImagePullPolicy twoContainerPod "Pod").Comments.length = 2 ∧
    ¬ ((containerImageTag twoContainerPod "Pod").Grade = GradeAllOK ∧
        (containerImagePullPolicy twoContainerPod "Pod").Grade = GradeAllOK) :=
  ⟨by decide,
   (unset_policy_exactly_one_comment twoContainerPod "Pod" (by decide)).2.2.1,
   (unset_policy_exactly_one_comment twoContainerPod "Pod" (by decide)).2.2.2
     (Or.inl (by decide))⟩

/-- C18: the grade of each of the three checks depends only on which
containers are present, not on their order or on whether they are init or
regular containers: on two pod templates whose merged container lists are
permutations of each other, each check returns the same grade (for
`containerResources`, with the same flag value), and the kind argument never
affects the result. -/
theorem grade_depends_only_on_containers (requireCPULimit : Bool)
    (podTemplate other : PodTemplateSpec) (kind kindOther : String)
    (hperm : (podTemplate.Spec.InitContainers ++ podTemplate.Spec.Containers).Perm
      (other.Spec.InitContainers ++ other.Spec.Containers)) :
    (containerResources requireCPULimit podTemplate kind).Grade =
      (containerResources requireCPULimit other kindOther).Grade ∧
    (containerImageTag podTemplate kind).Grade = (containerImageTag other kindOther).Grade ∧
    (containerImagePullPolicy podTemplate kind).Grade =
      (containerImagePullPolicy other kindOther).Grade ∧
    containerResources requireCPULimit podTemplate kind =
      containerResources requireCPULimit podTemplate kindOther ∧
    containerImageTag podTemplate kind = containerImageTag podTemplate kindOther ∧
    containerImagePullPolicy podTemplate kind =
      containerImagePullPolicy podTemplate kindOther := by
  have hp : (allContainers podTemplate).Perm (allContainers other) := hperm
  have hex : ∀ P : Container → Prop,
      (∃ c ∈ allContainers podTemplate, P c) ↔ (∃ c ∈ allContainers other, P c) := by
    intro P
    constructor
    · rintro ⟨c, hc, h⟩
      exact ⟨c, hp.mem_iff.mp hc, h⟩
    · rintro ⟨c, hc, h⟩
      exact ⟨c, hp.mem_iff.mpr hc, h⟩
  have hnil : allContainers podTemplate = [] ↔ allContainers other = [] := by
    constructor
    · intro h
      rw [h] at hp
      exact List.nil_perm.mp hp
    · intro h
      rw [h] at hp
      exact List.perm_nil.mp hp
  refine ⟨?_, ?_, ?_, rfl, rfl, rfl⟩
  · rw [containerResources_eq, containerResources_eq]
    by_cases h : allContainers podTemplate = []
    · rw [if_pos h, if_pos (hnil.mp h)]
    · rw [if_neg h, if_neg (fun e => h (hnil.mpr e))]
      simp only [hex (missingLimit requireCPULimit), hex missingRequest]
  · rw [containerImageTag_eq, containerImageTag_eq]
    simp only [hex tagEmptyOrLatest]
  · rw [containerImagePullPolicy_eq, containerImagePullPolicy_eq]
    simp only [hex pullPolicyFails]

/-- Witness of C18: the template `twoContainerPod` and the template with
its two containers swapped between the init list and the regular list. -/
theorem grade_depends_only_on_containers_witness :
    (twoContainerPod.Spec.InitContainers ++ twoContainerPod.Spec.Containers).Perm
      (swappedTwoContainerPod.Spec.InitContainers ++
        swappedTwoContainerPod.Spec.Containers) ∧
    (containerResources true twoContainerPod "Pod").Grade =
      (containerResources true swappedTwoContainerPod "Job").Grade ∧
    (containerImageTag twoContainerPod "Pod").Grade =
      (containerImageTag swappedTwoContainerPod "Job").Grade ∧
    (containerImagePullPolicy twoContainerPod "Pod").Grade =
      (containerImagePullPolicy swappedTwoContainerPod "Job").Grade :=
  ⟨List.Perm.swap _ _ [],
   (grade_depends_only_on_containers true twoContainerPod swappedTwoContainerPod
      "Pod" "Job" (List.Perm.swap _ _ [])).1,
   (grade_depends_only_on_containers true twoContainerPod swappedTwoContainerPod
      "Pod" "Job" (List.Perm.swap _ _ [])).2.1,
   (grade_depends_only_on_containers true twoContainerPod swappedTwoContainerPod
      "Pod" "Job" (List.Perm.swap _ _ [])).2.2.1⟩

/-! ## The merged container list -/

theorem append_elems (s : Slice) (xs : List Container) :
    (builtin.append s xs).1.elems = s.elems ++ xs := by
  unfold builtin.append Slice.elems Slice.cap
  by_cases h : s.len + xs.length ≤ s.array.length
  · have hlen : (s.array.take s.len).length = s.len := by
      rw [List.length_take]
      omega
    have hlen2 : (s.array.take s.len ++ xs).length = s.len + xs.length := by
      rw [List.length_append, hlen]
    simp only [if_pos h]
    rw [← hlen2, List.take_left]
  · have hle : (s.array.take s.len ++ xs).length ≤ s.len + xs.length := by
      rw [List.length_append, List.length_take]
      omega
    simp only [if_neg h]
    exact List.take_of_length_le hle

theorem append_keeps_argument (s : Slice) (xs : List Container) :
    (builtin.append s xs).2.elems = s.elems ∧ (builtin.append s xs).2.len = s.len := by
  unfold builtin.append Slice.elems Slice.cap
  by_cases h : s.len + xs.length ≤ s.array.length
  · have hlen : (s.array.take s.len).length = s.len := by
      rw [List.length_take]
      omega
    have htake : ∀ ys : List Container,
        (s.array.take s.len ++ ys).take s.len = s.array.take s.len := by
      intro ys
      have h2 : (s.array.take s.len ++ ys).take (s.array.take s.len).length =
          s.array.take s.len := by
        rw [List.take_left]
      rw [hlen] at h2
      exact h2
    simp only [if_pos h, List.append_assoc]
    exact ⟨htake _, trivial⟩
  · simp only [if_neg h]
    exact ⟨trivial, trivial⟩

theorem append_keeps_window (s : Slice) (xs : List Container) (off n : Nat)
    (hdisj : off + n ≤ s.len ∨ s.len + xs.length ≤ off) :
    (builtin.append s xs).2.window off n = s.window off n := by
  unfold builtin.append Slice.window Slice.cap
  by_cases h : s.len + xs.length ≤ s.array.length
  · have hlen : (s.array.take s.len).length = s.len := by
      rw [List.length_take]
      omega
    simp only [if_pos h]
    rcases hdisj with hd | hd
    · rw [List.take_drop, List.take_drop, List.append_assoc,
        List.take_append_of_le_length (by omega), List.take_take,
        Nat.min_eq_left hd]
    · have hlen2 : (s.array.take s.len ++ xs).length = s.len + xs.length := by
        rw [List.length_append, hlen]
      have hoff : off = (s.array.take s.len ++ xs).length + (off - (s.len + xs.length)) := by
        omega
      have hdrop : (s.array.take s.len ++ xs ++ s.array.drop (s.len + xs.length)).drop off =
          s.array.drop off := by
        conv_lhs => rw [hoff]
        rw [List.drop_append, List.drop_drop]
        congr 1
        omega
      rw [hdrop]
  · simp only [if_neg h]

/-- C12 (as amended): in each of the three checks the containers are
examined as the merged list of init containers in declared order followed
by regular containers in declared order: when both lists are non-empty, the
comments are those of the check on the init containers alone followed by
those of the check on the regular containers alone. Building the merged
list by `append` leaves the init-container list of the input as it was, for
every slice that holds it; and it leaves the container list of the input as
it was when that list lies in the same array and shares no cell with the
cells behind the length of the init-container slice that `append` writes. -/
theorem merged_list_init_then_regular (requireCPULimit : Bool)
    (podTemplate : PodTemplateSpec) (kind : String)
    (hinit : podTemplate.Spec.InitContainers ≠ [])
    (hcont : podTemplate.Spec.Containers ≠ []) :
    (containerResources requireCPULimit podTemplate kind).Comments =
      (containerResources requireCPULimit
        { podTemplate with Spec := { podTemplate.Spec with Containers := [] } } kind).Comments ++
      (containerResources requireCPULimit
        { podTemplate with Spec := { podTemplate.Spec with InitContainers := [] } }
        kind).Comments ∧
    (containerImageTag podTemplate kind).Comments =
      (containerImageTag
        { podTemplate with Spec := { podTemplate.Spec with Containers := [] } } kind).Comments ++
      (containerImageTag
        { podTemplate with Spec := { podTemplate.Spec with InitContainers := [] } }
        kind).Comments ∧
    (containerImagePullPolicy podTemplate kind).Comments =
      (containerImagePullPolicy
        { podTemplate with Spec := { podTemplate.Spec with Containers := [] } } kind).Comments ++
      (containerImagePullPolicy
        { podTemplate with Spec := { podTemplate.Spec with InitContainers := [] } }
        kind).Comments ∧
    (∀ s : Slice, s.elems = podTemplate.Spec.InitContainers →
      (builtin.append s podTemplate.Spec.Containers).1.elems =
        podTemplate.Spec.InitContainers ++ podTemplate.Spec.Containers ∧
      (builtin.append s podTemplate.Spec.Containers).2.elems =
        podTemplate.Spec.InitContainers ∧
      (builtin.append s podTemplate.Spec.Containers).2.len = s.len ∧
      ∀ off : Nat,
        s.window off podTemplate.Spec.Containers.length = podTemplate.Spec.Containers →
        (off + podTemplate.Spec.Containers.length ≤ s.len ∨
          s.len + podTemplate.Spec.Containers.length ≤ off) →
        (builtin.append s podTemplate.Spec.Containers).2.window off
          podTemplate.Spec.Containers.length = podTemplate.Spec.Containers) := by
  have hall : allContainers podTemplate =
      podTemplate.Spec.InitContainers ++ podTemplate.Spec.Containers := rfl
  have hi : allContainers
      { podTemplate with Spec := { podTemplate.Spec with Containers := [] } } =
      podTemplate.Spec.InitContainers := by
    simp [allContainers]
  have hc : allContainers
      { podTemplate with Spec := { podTemplate.Spec with InitContainers := [] } } =
      podTemplate.Spec.Containers := by
    simp [allContainers]
  have hne : podTemplate.Spec.InitContainers ++ podTemplate.Spec.Containers ≠ [] := by
    simp [hinit]
  refine ⟨?_, ?_, ?_, ?_⟩
  · rw [containerResources_eq, containerResources_eq, containerResources_eq, hall, hi, hc,
      if_neg hne, if_neg hinit, if_neg hcont]
    exact List.flatMap_append _ _ _
  · rw [containerImageTag_eq, containerImageTag_eq, containerImageTag_eq, hall, hi, hc]
    simp only [List.filter_append, List.map_append]
  · rw [containerImagePullPolicy_eq, containerImagePullPolicy_eq, containerImagePullPolicy_eq,
      hall, hi, hc]
    simp only [List.filter_append, List.map_append]
  · intro s hs
    refine ⟨?_, ?_, ?_, ?_⟩
    · rw [append_elems, hs]
    · rw [(append_keeps_argument s _).1, hs]
    · exact (append_keeps_argument s _).2
    · intro off hwin hdisj
      rw [append_keeps_window s _ off _ hdisj, hwin]

/-- Witness of C12 (as amended): the template `twoContainerPod`, whose init
list is held by a slice with spare capacity, so that `append` writes in
place; in `initSliceSharedArray` the regular container lies in the same
array, behind the cell that is written. -/
theorem merged_list_init_then_regular_witness :
    twoContainerPod.Spec.InitContainers ≠ [] ∧ twoContainerPod.Spec.Containers ≠ [] ∧
    initSliceWithSpareCapacity.elems = twoContainerPod.Spec.InitContainers ∧
    (containerResources true twoContainerPod "Pod").Comments =
      (containerResources true
        { twoContainerPod with Spec := { twoContainerPod.Spec with Containers := [] } }
        "Pod").Comments ++
      (containerResources true
        { twoContainerPod with Spec := { twoContainerPod.Spec with InitContainers := [] } }
        "Pod").Comments ∧
    (builtin.append initSliceWithSpareCapacity twoContainerPod.Spec.Containers).1.array =
      [{ Name := "setup", Image := "busybox" }, noCpuLimitContainer] ∧
    (builtin.append initSliceWithSpareCapacity twoContainerPod.Spec.Containers).2.elems =
      twoContainerPod.Spec.InitContainers ∧
    initSliceSharedArray.elems = twoContainerPod.Spec.InitContainers ∧
    initSliceSharedArray.window 2 1 = twoContainerPod.Spec.Containers ∧
    (builtin.append initSliceSharedArray twoContainerPod.Spec.Containers).2.array =
      [{ Name := "setup", Image := "busybox" }, noCpuLimitContainer, noCpuLimitContainer] ∧
    (builtin.append initSliceSharedArray twoContainerPod.Spec.Containers).2.window 2 1 =
      twoContainerPod.Spec.Containers :=
  ⟨by decide, by decide, by decide,
   (merged_list_init_then_regular true twoContainerPod "Pod" (by decide) (by decide)).1,
   by decide,
   ((merged_list_init_then_regular true twoContainerPod "Pod" (by decide)
      (by decide)).2.2.2 initSliceWithSpareCapacity (by decide)).2.1,
   by decide, by decide, by decide,
   ((merged_list_init_then_regular true twoContainerPod "Pod" (by decide)
      (by decide)).2.2.2 initSliceSharedArray (by decide)).2.2.2 2 (by decide)
      (Or.inr (by decide))⟩

/-- Counterexample to C12 as stated: the init containers are the window
`[0:2]` and the regular containers the window `[1:3]` of one array with
capacity four. Both lists are non-empty, yet after a check has built its
merged list the holder of the template reads the regular containers as b, b
where they were b, c, and `containerImageTag` run again returns three
comments where it returned two. -/
theorem append_overwrites_aliased_containers :
    aliasedPod.Spec.InitContainers ≠ [] ∧ aliasedPod.Spec.Containers ≠ [] ∧
    aliasedInitSlice.elems = aliasedPod.Spec.InitContainers ∧
    aliasedInitSlice.window 1 aliasedPod.Spec.Containers.length = aliasedPod.Spec.Containers ∧
    aliasedPod.Spec.Containers = [containerB, containerC] ∧
    (builtin.append aliasedInitSlice aliasedPod.Spec.Containers).2.array =
      [containerA, containerB, containerB, containerC] ∧
    (builtin.append aliasedInitSlice aliasedPod.Spec.Containers).2.window 1
      aliasedPod.Spec.Containers.length = [containerB, containerB] ∧
    ¬ ((builtin.append aliasedInitSlice aliasedPod.Spec.Containers).2.window 1
      aliasedPod.Spec.Containers.length = aliasedPod.Spec.Containers) ∧
    (containerImageTag aliasedPod "Pod").Comments.length = 2 ∧
    (containerImageTag aliasedPodAfterCheck "Pod").Comments.length = 3 := by
  refine ⟨?_, ?_, ?_, ?_, ?_, ?_, ?_, ?_, ?_, ?_⟩ <;> decide

/-- C14: on a registry that holds none of the three names, `Register`
succeeds and adds exactly three pod-level checks after those already
registered, in the order "Container Resources", "Container Image Tag",
"Container Image Pull Policy", with pairwise distinct names; the Container
Resources check is `containerResources` built once with the negation of
`IgnoreContainerCpuLimitRequirement`, so it uses the same flag for every
object scored. -/
theorem Register_three_checks (allChecks : Checks) (cnf : Configuration)
    (hfresh : ∀ p ∈ allChecks.pods,
      p.Check.Name ≠ "Container Resources" ∧ p.Check.Name ≠ "Container Image Tag" ∧
        p.Check.Name ≠ "Container Image Pull Policy") :
    ∃ reg, Register allChecks cnf = .ok reg ∧
      reg.pods.length = allChecks.pods.length + 3 ∧
      reg.pods.take allChecks.pods.length = allChecks.pods ∧
      (reg.pods.drop allChecks.pods.length).map (fun p => p.Check.Name) =
        ["Container Resources", "Container Image Tag", "Container Image Pull Policy"] ∧
      ["Container Resources", "Container Image Tag", "Container Image Pull Policy"].Nodup ∧
      (reg.pods.drop allChecks.pods.length).map CheckPod.Fn =
        [containerResources (!cnf.IgnoreContainerCpuLimitRequirement), containerImageTag,
          containerImagePullPolicy] ∧
      ∀ ch, reg.lookupPod "Container Resources" = some ch →
        ∀ (podTemplate : PodTemplateSpec) (kind : String),
          ch.Fn podTemplate kind =
            containerResources (!cnf.IgnoreContainerCpuLimitRequirement) podTemplate kind := by
  have hfind : allChecks.pods.find? (fun p => p.Check.Name == "Container Resources")
      = none := by
    rw [List.find?_eq_none]
    intro p hp
    simpa using (hfresh p hp).1
  unfold Register
  rw [RegisterPodCheck_ok allChecks _ _ _ (fun p hp => (hfresh p hp).1)]
  simp only [bind, Except.bind]
  rw [RegisterPodCheck_ok _ "Container Image Tag" _ _ (by
    intro p hp
    rcases List.mem_append.mp hp with h | h
    · exact (hfresh p h).2.1
    · rw [List.mem_singleton.mp h]
      simp)]
  simp only
  rw [RegisterPodCheck_ok _ "Container Image Pull Policy" _ _ (by
    intro p hp
    rcases List.mem_append.mp hp with h | h
    · rcases List.mem_append.mp h with h | h
      · exact (hfresh p h).2.2
      · rw [List.mem_singleton.mp h]
        simp
    · rw [List.mem_singleton.mp h]
      simp)]
  refine ⟨_, rfl, ?_, ?_, ?_, by decide, ?_, ?_⟩
  · simp
  · simp [List.append_assoc]
  · simp [List.append_assoc]
  · simp [List.append_assoc]
  · intro ch hch podTemplate kind
    simp [Checks.lookupPod, List.find?_append, hfind] at hch
    rw [← hch]

/-- Witness of C14: registration on the empty registry. -/
theorem Register_three_checks_witness :
    ∃ reg, Register {} { IgnoreContainerCpuLimitRequirement := true } = .ok reg ∧
      reg.pods.map (fun p => p.Check.Name) =
        ["Container Resources", "Container Image Tag", "Container Image Pull Policy"] ∧
      reg.pods.map CheckPod.Fn =
        [containerResources false, containerImageTag, containerImagePullPolicy] := by
  obtain ⟨reg, h1, _, _, h4, _, h6, _⟩ :=
    Register_three_checks {} { IgnoreContainerCpuLimitRequirement := true } (by simp)
  exact ⟨reg, h1, h4, h6⟩

end KubeScore
